import Mathlib

/-!
Verification of the `wolfsoftware.pushover` client library
(`src/wolfsoftware/pushover/pushover.py`), a thin request-building and
error-translation layer over the Pushover HTTP API.

The embedding models each method of the `Pushover` class as a pure
function of the client state, the call arguments, and a `World` oracle
describing what the environment does on this call (the outcome of the
one `requests.post`/`requests.get` the method can issue, and whether
`open(attachment, "rb")` succeeds).  Each method returns the Python
outcome (`CallResult`: the parsed JSON body, or the exception that
propagates to the caller) together with the trace of externally visible
events (file opens/closes, HTTP requests) in the order they occur.

External collaborators are modelled from their documented behaviour:
`requests.Response.raise_for_status` raises `HTTPError` exactly when
`400 <= status_code < 600`, with message
`"<status> Client Error: <reason> for url: <url>"` (client range) or
`"<status> Server Error: <reason> for url: <url>"` (server range);
`requests` form-data values may be strings, ints or `None`;
`response.json()` either yields the decoded body or raises a JSON
decode error.  Python truthiness of an `Optional[str]` is false exactly
on `None` and the empty string.
-/

/-- A JSON value, as returned by `response.json()`. -/
inductive Json where
  | null : Json
  | bool (b : Bool) : Json
  | num (n : Int) : Json
  | str (s : String) : Json
  | arr (xs : List Json) : Json
  | obj (fields : List (String × Json)) : Json

/-- A value placed in the `payload` dict: Python `str`, `int` or `None`. -/
inductive Value where
  | null : Value
  | str (s : String) : Value
  | int (n : Int) : Value
deriving DecidableEq, Repr

/-- Embeds an `Optional[str]` argument as a payload value. -/
def ofOptStr : Option String → Value
  | none => Value.null
  | some s => Value.str s

/-- Embeds an `Optional[int]` argument as a payload value. -/
def ofOptInt : Option Int → Value
  | none => Value.null
  | some n => Value.int n

/-- Python truthiness of an `Optional[str]`: `None` and `""` are falsy. -/
def truthy : Option String → Bool
  | none => false
  | some s => !(s == "")

/-- The body of an HTTP response, as seen through `response.json()`:
either it decodes to a JSON value, or decoding raises with message `err`. -/
inductive Body where
  | json (v : Json) : Body
  | notJson (err : String) : Body

/-- Outcome of a single `requests.post` / `requests.get` call: either the
call raises a `RequestException` whose string form is `e` (connection
error, timeout, DNS failure, ...), or it returns a response with a
status code, a reason phrase and a body. -/
inductive HttpOutcome where
  | transportError (e : String) : HttpOutcome
  | response (status : Nat) (reason : String) (body : Body) : HttpOutcome

/-- The environment of one method invocation: what the transport answers
to the (at most one) POST and the (at most one) GET the method can
issue, and whether `open(attachment, "rb")` succeeds (`openErr` is the
string form of the `OSError` when it does not). -/
structure World where
  postOutcome : HttpOutcome
  getOutcome : HttpOutcome
  openOk : Bool
  openErr : String

/-- An exception propagating out of a method to the caller. -/
inductive PyExn where
  | pushoverException (msg : String) : PyExn
  | jsonDecodeError (msg : String) : PyExn
  | osError (msg : String) : PyExn
deriving DecidableEq, Repr

/-- Result of a method call: the returned dict, or the raised exception. -/
inductive CallResult where
  | ok (body : Json) : CallResult
  | error (e : PyExn) : CallResult

/-- An externally visible effect of a method call, in order of occurrence.
`httpPost` records the url, the `data=` payload, the `files=` parts
(field name and the path of the opened file) and the timeout;
`httpGet` records the url, the query parameters and the timeout. -/
inductive Event where
  | fileOpen (path : String) (mode : String) : Event
  | fileClose (path : String) : Event
  | httpPost (url : String) (data : List (String × Value))
      (files : List (String × String)) (timeout : Int) : Event
  | httpGet (url : String) (params : List (String × String))
      (timeout : Int) : Event
deriving DecidableEq, Repr

/-- The client state set up by `Pushover.__init__`. -/
structure Pushover where
  user_key : String
  api_token : String
  timeout : Int
deriving DecidableEq, Repr

/-- The field `self.api_url`, fixed by `__init__`. -/
def Pushover.api_url (_ : Pushover) : String :=
  "https://api.pushover.net/1/messages.json"

/-- Default of the `timeout` parameter of `__init__`. -/
def defaultTimeout : Int := 10

/-- String form of the `HTTPError` raised by
`requests.Response.raise_for_status` (only used for `400 ≤ status < 600`). -/
def httpErrorText (status : Nat) (reason url : String) : String :=
  if 400 ≤ status ∧ status < 500 then
    toString status ++ " Client Error: " ++ reason ++ " for url: " ++ url
  else
    toString status ++ " Server Error: " ++ reason ++ " for url: " ++ url

/-- The shared tail of all four methods: `response.raise_for_status()`
inside the `try` block guarded by `except (HTTPError, RequestException)`
— which wraps the exception into `PushoverException(pfx + str(e))` —
followed by `return response.json()` outside the `try` block. -/
def finish (pfx url : String) (out : HttpOutcome) : CallResult :=
  match out with
  | HttpOutcome.transportError e =>
      CallResult.error (PyExn.pushoverException (pfx ++ e))
  | HttpOutcome.response status reason body =>
      if 400 ≤ status ∧ status < 600 then
        CallResult.error
          (PyExn.pushoverException (pfx ++ httpErrorText status reason url))
      else
        match body with
        | Body.json v => CallResult.ok v
        | Body.notJson err => CallResult.error (PyExn.jsonDecodeError err)

/-- The `payload` dict built by `Pushover.send_message`. -/
def message_payload (p : Pushover) (message : String)
    (title url url_title : Option String) (priority : Option Int)
    (sound device : Option String) : List (String × Value) :=
  [("token", Value.str p.api_token),
   ("user", Value.str p.user_key),
   ("message", Value.str message),
   ("title", ofOptStr title),
   ("url", ofOptStr url),
   ("url_title", ofOptStr url_title),
   ("priority", ofOptInt priority),
   ("sound", ofOptStr sound),
   ("device", ofOptStr device)]

/-- Method `Pushover.send_message`.  When `attachment` is truthy the file is
opened with `open(attachment, "rb")` in a `with` block that encloses
only the `requests.post` call, so the handle is closed before
`raise_for_status` runs and also when the post raises; a failing `open`
raises an `OSError` that no `except` clause catches. -/
def send_message (p : Pushover) (w : World) (message : String)
    (title url url_title : Option String) (priority : Option Int)
    (sound device : Option String) (attachment : Option String) :
    CallResult × List Event :=
  let payload := message_payload p message title url url_title priority sound device
  if truthy attachment then
    let path := attachment.getD ""
    if w.openOk then
      (finish "Failed to send message: " p.api_url w.postOutcome,
       [Event.fileOpen path "rb",
        Event.httpPost p.api_url payload [("attachment", path)] p.timeout,
        Event.fileClose path])
    else
      (CallResult.error (PyExn.osError w.openErr), [])
  else
    (finish "Failed to send message: " p.api_url w.postOutcome,
     [Event.httpPost p.api_url payload [] p.timeout])

/-- The `payload` dict built by `Pushover.send_emergency_message`:
`priority` is the literal `2`, and `retry` / `expire` are extra fields. -/
def emergency_payload (p : Pushover) (message : String)
    (title url url_title : Option String) (retry expire : Option Int)
    (sound device : Option String) : List (String × Value) :=
  [("token", Value.str p.api_token),
   ("user", Value.str p.user_key),
   ("message", Value.str message),
   ("title", ofOptStr title),
   ("url", ofOptStr url),
   ("url_title", ofOptStr url_title),
   ("priority", Value.int 2),
   ("retry", ofOptInt retry),
   ("expire", ofOptInt expire),
   ("sound", ofOptStr sound),
   ("device", ofOptStr device)]

/-- Default of the `retry` parameter of `send_emergency_message`. -/
def default_retry : Option Int := some 30

/-- Default of the `expire` parameter of `send_emergency_message`. -/
def default_expire : Option Int := some 3600

/-- Method `Pushover.send_emergency_message`: one plain form-encoded POST, no
attachment support. -/
def send_emergency_message (p : Pushover) (w : World) (message : String)
    (title url url_title : Option String) (retry expire : Option Int)
    (sound device : Option String) : CallResult × List Event :=
  let payload := emergency_payload p message title url url_title retry expire sound device
  (finish "Failed to send emergency message: " p.api_url w.postOutcome,
   [Event.httpPost p.api_url payload [] p.timeout])

/-- The `payload` dict built by `Pushover.send_group_message`: identical
to `message_payload` except `user` comes from the `group_key` argument. -/
def group_payload (p : Pushover) (message group_key : String)
    (title url url_title : Option String) (priority : Option Int)
    (sound device : Option String) : List (String × Value) :=
  [("token", Value.str p.api_token),
   ("user", Value.str group_key),
   ("message", Value.str message),
   ("title", ofOptStr title),
   ("url", ofOptStr url),
   ("url_title", ofOptStr url_title),
   ("priority", ofOptInt priority),
   ("sound", ofOptStr sound),
   ("device", ofOptStr device)]

/-- Method `Pushover.send_group_message`: same shape as `send_message` with the
group payload and its own failure prefix. -/
def send_group_message (p : Pushover) (w : World) (message group_key : String)
    (title url url_title : Option String) (priority : Option Int)
    (sound device : Option String) (attachment : Option String) :
    CallResult × List Event :=
  let payload := group_payload p message group_key title url url_title priority sound device
  if truthy attachment then
    let path := attachment.getD ""
    if w.openOk then
      (finish "Failed to send group message: " p.api_url w.postOutcome,
       [Event.fileOpen path "rb",
        Event.httpPost p.api_url payload [("attachment", path)] p.timeout,
        Event.fileClose path])
    else
      (CallResult.error (PyExn.osError w.openErr), [])
  else
    (finish "Failed to send group message: " p.api_url w.postOutcome,
     [Event.httpPost p.api_url payload [] p.timeout])

/-- The fixed `sounds_url` of `Pushover.list_sounds`. -/
def sounds_url : String := "https://api.pushover.net/1/sounds.json"

/-- Method `Pushover.list_sounds`: one GET with only `token` as a parameter. -/
def list_sounds (p : Pushover) (w : World) : CallResult × List Event :=
  let params := [("token", p.api_token)]
  (finish "Failed to list sounds: " sounds_url w.getOutcome,
   [Event.httpGet sounds_url params p.timeout])

/-- The `data=` payloads of the HTTP POST events of a trace, in order. -/
def postedData : List Event → List (List (String × Value))
  | [] => []
  | Event.httpPost _ d _ _ :: es => d :: postedData es
  | _ :: es => postedData es

/-- The number of HTTP requests (POST or GET) in a trace. -/
def httpCount : List Event → Nat
  | [] => 0
  | Event.httpPost _ _ _ _ :: es => httpCount es + 1
  | Event.httpGet _ _ _ :: es => httpCount es + 1
  | _ :: es => httpCount es

/-! ## Helper lemmas -/

/-- On any call whose attachment (when truthy) can be opened, the result
of `send_message` is the shared error-translation of the POST outcome. -/
theorem send_message_fst (p : Pushover) (w : World) (m : String)
    (t u ut : Option String) (pr : Option Int) (s d : Option String)
    (a : Option String) (hopen : truthy a = true → w.openOk = true) :
    (send_message p w m t u ut pr s d a).fst
      = finish "Failed to send message: " p.api_url w.postOutcome := by
  by_cases ha : truthy a = true
  · simp [send_message, ha, hopen ha]
  · simp [send_message, ha]

/-- Same as `send_message_fst`, for `send_group_message`. -/
theorem send_group_message_fst (p : Pushover) (w : World) (m gk : String)
    (t u ut : Option String) (pr : Option Int) (s d : Option String)
    (a : Option String) (hopen : truthy a = true → w.openOk = true) :
    (send_group_message p w m gk t u ut pr s d a).fst
      = finish "Failed to send group message: " p.api_url w.postOutcome := by
  by_cases ha : truthy a = true
  · simp [send_group_message, ha, hopen ha]
  · simp [send_group_message, ha]

/-- Applying `finish` to a response outside the `raise_for_status` range
returns the decoded JSON body. -/
theorem finish_ok (pfx url : String) (status : Nat) (reason : String)
    (v : Json) (h : ¬(400 ≤ status ∧ status < 600)) :
    finish pfx url (HttpOutcome.response status reason (Body.json v))
      = CallResult.ok v := by
  simp [finish, h]

/-- Applying `finish` to a 4xx/5xx response wraps the `HTTPError` text. -/
theorem finish_httpError (pfx url : String) (status : Nat) (reason : String)
    (body : Body) (h4 : 400 ≤ status) (h6 : status < 600) :
    finish pfx url (HttpOutcome.response status reason body)
      = CallResult.error
          (PyExn.pushoverException (pfx ++ httpErrorText status reason url)) := by
  simp [finish, h4, h6]

/-- Applying `finish` to a non-error response whose body is not JSON
raises the raw decode error. -/
theorem finish_notJson (pfx url : String) (status : Nat) (reason err : String)
    (h : ¬(400 ≤ status ∧ status < 600)) :
    finish pfx url (HttpOutcome.response status reason (Body.notJson err))
      = CallResult.error (PyExn.jsonDecodeError err) := by
  simp [finish, h]

/-! ## Concrete fixtures for counterexamples and witnesses -/

/-- The client of the spec scenario: `user_key="U"`, `api_token="T"`. -/
def cClient : Pushover := ⟨"U", "T", 10⟩

/-- A world answering every request with a transport failure `"boom"`. -/
def wTransportFail : World :=
  ⟨HttpOutcome.transportError "boom", HttpOutcome.transportError "boom", true, ""⟩

/-- A world answering every request with status 200 and body
`{"status": 1}`. -/
def wOk : World :=
  ⟨HttpOutcome.response 200 "OK" (Body.json (Json.obj [("status", Json.num 1)])),
   HttpOutcome.response 200 "OK" (Body.json (Json.obj [("status", Json.num 1)])),
   true, ""⟩

/-- A world answering every request with the non-2xx, non-4xx/5xx status
300 and the JSON body `1`. -/
def wRedirect : World :=
  ⟨HttpOutcome.response 300 "Multiple Choices" (Body.json (Json.num 1)),
   HttpOutcome.response 300 "Multiple Choices" (Body.json (Json.num 1)),
   true, ""⟩

/-- A world answering every request with status 200 and a body that is
not valid JSON. -/
def wBadBody : World :=
  ⟨HttpOutcome.response 200 "OK" (Body.notJson "Expecting value"),
   HttpOutcome.response 200 "OK" (Body.notJson "Expecting value"),
   true, ""⟩

/-- A world in which opening the attachment file fails. -/
def wOpenFail : World :=
  ⟨HttpOutcome.transportError "boom", HttpOutcome.transportError "boom",
   false, "No such file or directory"⟩

/-- Evaluating the first component of `send_emergency_message`. -/
theorem send_emergency_message_fst (p : Pushover) (w : World) (m : String)
    (t u ut : Option String) (r ex : Option Int) (s d : Option String) :
    (send_emergency_message p w m t u ut r ex s d).fst
      = finish "Failed to send emergency message: " p.api_url w.postOutcome := rfl

/-- Evaluating the first component of `list_sounds`. -/
theorem list_sounds_fst (p : Pushover) (w : World) :
    (list_sounds p w).fst
      = finish "Failed to list sounds: " sounds_url w.getOutcome := rfl

/-! ## Claims -/

/-- Claim C2: for each of the four operations, a 2xx response whose body
decodes to JSON `v` makes the operation return `v` unchanged — no
interpretation or modification of the response fields. -/
theorem c2_success_returns_body (p : Pushover) (w : World) (m gk : String)
    (t u ut : Option String) (pr r ex : Option Int) (s d : Option String)
    (a : Option String) (status : Nat) (reason : String) (v : Json)
    (hopen : truthy a = true → w.openOk = true)
    (hpost : w.postOutcome = HttpOutcome.response status reason (Body.json v))
    (hget : w.getOutcome = HttpOutcome.response status reason (Body.json v))
    (h2 : 200 ≤ status) (h3 : status < 300) :
    (send_message p w m t u ut pr s d a).fst = CallResult.ok v ∧
    (send_emergency_message p w m t u ut r ex s d).fst = CallResult.ok v ∧
    (send_group_message p w m gk t u ut pr s d a).fst = CallResult.ok v ∧
    (list_sounds p w).fst = CallResult.ok v := by
  have hn : ¬(400 ≤ status ∧ status < 600) := by omega
  refine ⟨?_, ?_, ?_, ?_⟩
  · rw [send_message_fst p w m t u ut pr s d a hopen, hpost,
      finish_ok _ _ _ _ _ hn]
  · rw [send_emergency_message_fst, hpost, finish_ok _ _ _ _ _ hn]
  · rw [send_group_message_fst p w m gk t u ut pr s d a hopen, hpost,
      finish_ok _ _ _ _ _ hn]
  · rw [list_sounds_fst, hget, finish_ok _ _ _ _ _ hn]

/-- Witness for C2 at the spec scenario: client ("U", "T"), status 200,
body the JSON object with field "status" = 1. -/
theorem c2_success_returns_body_witness :
    (send_message cClient wOk "hi" none none none (some 0) none none none).fst
        = CallResult.ok (Json.obj [("status", Json.num 1)]) ∧
    (send_emergency_message cClient wOk "hi" none none none (some 30) (some 3600)
        none none).fst = CallResult.ok (Json.obj [("status", Json.num 1)]) ∧
    (send_group_message cClient wOk "hi" "G" none none none (some 0) none none
        none).fst = CallResult.ok (Json.obj [("status", Json.num 1)]) ∧
    (list_sounds cClient wOk).fst
        = CallResult.ok (Json.obj [("status", Json.num 1)]) :=
  c2_success_returns_body cClient wOk "hi" "G" none none none (some 0) (some 30)
    (some 3600) none none none 200 "OK" (Json.obj [("status", Json.num 1)])
    (fun _ => rfl) rfl rfl (by decide) (by decide)

/-- Claim C1 counterexample: status 300 is non-2xx, yet `raise_for_status`
does not raise for it, so `send_message` and `list_sounds` raise no
`PushoverException` and instead return the decoded body. -/
theorem c1_counterexample_redirect_status :
    ¬(200 ≤ 300 ∧ 300 < 300) ∧
    (send_message cClient wRedirect "hi" none none none (some 0) none none
        none).fst = CallResult.ok (Json.num 1) ∧
    (list_sounds cClient wRedirect).fst = CallResult.ok (Json.num 1) :=
  ⟨by decide, rfl, rfl⟩

/-- Claim C1 (amended): for each of the four operations, a transport-level
failure, or a response whose status lies in 400..599 (the exact range on
which `raise_for_status` raises), makes the operation fail with a
`PushoverException` whose message is exactly the operation-specific
prefix followed by the string form of the underlying failure, and no
other error kind is raised on these paths; a non-2xx status outside
400..599 (e.g. 300) raises nothing and the body is returned. -/
theorem c1_error_translation_amended (p : Pushover) (w : World) (m gk : String)
    (t u ut : Option String) (pr r ex : Option Int) (s d : Option String)
    (a : Option String) (emsg reason : String) (status : Nat) (body : Body)
    (hopen : truthy a = true → w.openOk = true) :
    (w.postOutcome = HttpOutcome.transportError emsg →
      (send_message p w m t u ut pr s d a).fst
          = CallResult.error
              (PyExn.pushoverException ("Failed to send message: " ++ emsg)) ∧
      (send_emergency_message p w m t u ut r ex s d).fst
          = CallResult.error
              (PyExn.pushoverException
                ("Failed to send emergency message: " ++ emsg)) ∧
      (send_group_message p w m gk t u ut pr s d a).fst
          = CallResult.error
              (PyExn.pushoverException
                ("Failed to send group message: " ++ emsg))) ∧
    (w.getOutcome = HttpOutcome.transportError emsg →
      (list_sounds p w).fst
          = CallResult.error
              (PyExn.pushoverException ("Failed to list sounds: " ++ emsg))) ∧
    (w.postOutcome = HttpOutcome.response status reason body →
        400 ≤ status → status < 600 →
      (send_message p w m t u ut pr s d a).fst
          = CallResult.error
              (PyExn.pushoverException ("Failed to send message: "
                ++ httpErrorText status reason p.api_url)) ∧
      (send_emergency_message p w m t u ut r ex s d).fst
          = CallResult.error
              (PyExn.pushoverException ("Failed to send emergency message: "
                ++ httpErrorText status reason p.api_url)) ∧
      (send_group_message p w m gk t u ut pr s d a).fst
          = CallResult.error
              (PyExn.pushoverException ("Failed to send group message: "
                ++ httpErrorText status reason p.api_url))) ∧
    (w.getOutcome = HttpOutcome.response status reason body →
        400 ≤ status → status < 600 →
      (list_sounds p w).fst
          = CallResult.error
              (PyExn.pushoverException ("Failed to list sounds: "
                ++ httpErrorText status reason sounds_url))) := by
  refine ⟨?_, ?_, ?_, ?_⟩
  · intro hp
    refine ⟨?_, ?_, ?_⟩
    · rw [send_message_fst p w m t u ut pr s d a hopen, hp]; rfl
    · rw [send_emergency_message_fst, hp]; rfl
    · rw [send_group_message_fst p w m gk t u ut pr s d a hopen, hp]; rfl
  · intro hg
    rw [list_sounds_fst, hg]; rfl
  · intro hp h4 h6
    refine ⟨?_, ?_, ?_⟩
    · rw [send_message_fst p w m t u ut pr s d a hopen, hp,
        finish_httpError _ _ _ _ _ h4 h6]
    · rw [send_emergency_message_fst, hp, finish_httpError _ _ _ _ _ h4 h6]
    · rw [send_group_message_fst p w m gk t u ut pr s d a hopen, hp,
        finish_httpError _ _ _ _ _ h4 h6]
  · intro hg h4 h6
    rw [list_sounds_fst, hg, finish_httpError _ _ _ _ _ h4 h6]

/-- Witness for C1 (amended), in a world whose transport fails with
string form "boom". -/
theorem c1_error_translation_amended_witness :
    (send_message cClient wTransportFail "hi" none none none (some 0) none none
        none).fst
      = CallResult.error
          (PyExn.pushoverException ("Failed to send message: " ++ "boom")) ∧
    (list_sounds cClient wTransportFail).fst
      = CallResult.error
          (PyExn.pushoverException ("Failed to list sounds: " ++ "boom")) := by
  have h := c1_error_translation_amended cClient wTransportFail "hi" "G"
    none none none (some 0) (some 30) (some 3600) none none none
    "boom" "r" 500 (Body.notJson "x") (fun _ => rfl)
  exact ⟨(h.1 rfl).1, h.2.1 rfl⟩

/-- Claim C3: `send_emergency_message` always posts a single request whose
payload carries `priority` equal to the literal 2, whatever the other
arguments, and its `retry` / `expire` parameters default to 30 and 3600. -/
theorem c3_emergency_priority_fixed (p : Pushover) (w : World) (m : String)
    (t u ut : Option String) (r ex : Option Int) (s d : Option String) :
    (send_emergency_message p w m t u ut r ex s d).snd
        = [Event.httpPost p.api_url (emergency_payload p m t u ut r ex s d)
            [] p.timeout] ∧
    List.lookup "priority" (emergency_payload p m t u ut r ex s d)
        = some (Value.int 2) ∧
    List.lookup "retry" (emergency_payload p m t u ut default_retry
        default_expire s d) = some (Value.int 30) ∧
    List.lookup "expire" (emergency_payload p m t u ut default_retry
        default_expire s d) = some (Value.int 3600) :=
  ⟨rfl, rfl, rfl, rfl⟩

/-- Claim C4: every payload POSTed by `send_group_message` carries
`user` equal to the caller-supplied `group_key` argument and `token`
equal to the client's stored `api_token` — never the stored `user_key`. -/
theorem c4_group_message_uses_group_key (p : Pushover) (w : World)
    (m gk : String) (t u ut : Option String) (pr : Option Int)
    (s d : Option String) (a : Option String) :
    ∀ data ∈ postedData (send_group_message p w m gk t u ut pr s d a).snd,
      List.lookup "user" data = some (Value.str gk) ∧
      List.lookup "token" data = some (Value.str p.api_token) := by
  intro data hd
  have hdata : data = group_payload p m gk t u ut pr s d := by
    by_cases ha : truthy a = true
    · by_cases ho : w.openOk = true
      · simp [send_group_message, ha, ho, postedData] at hd
        exact hd
      · simp [send_group_message, ha, ho, postedData] at hd
    · simp [send_group_message, ha, postedData] at hd
      exact hd
  rw [hdata]
  exact ⟨rfl, rfl⟩

/-- Witness for C4: a client with `user_key = "U"` sending to group
`"G"` posts `user = "G"` and `token = "T"`. -/
theorem c4_group_message_uses_group_key_witness :
    List.lookup "user"
        (group_payload cClient "hi" "G" none none none (some 0) none none)
      = some (Value.str "G") ∧
    List.lookup "token"
        (group_payload cClient "hi" "G" none none none (some 0) none none)
      = some (Value.str "T") :=
  c4_group_message_uses_group_key cClient wOk "hi" "G" none none none (some 0)
    none none none
    (group_payload cClient "hi" "G" none none none (some 0) none none)
    (by decide)

/-- Claim C5: with a non-empty attachment path that can be opened, both
`send_message` and `send_group_message` open that file exactly once in
binary read mode, send the payload as a multipart request whose file
part is named `attachment`, and close the file exactly once, after the
POST and before the response is examined — the trace is the same
whatever the HTTP outcome, transport failures included. -/
theorem c5_attachment_open_close (p : Pushover) (w : World) (m gk path : String)
    (t u ut : Option String) (pr : Option Int) (s d : Option String)
    (hpath : path ≠ "") (hopen : w.openOk = true) :
    (send_message p w m t u ut pr s d (some path)).snd
        = [Event.fileOpen path "rb",
           Event.httpPost p.api_url (message_payload p m t u ut pr s d)
             [("attachment", path)] p.timeout,
           Event.fileClose path] ∧
    (send_group_message p w m gk t u ut pr s d (some path)).snd
        = [Event.fileOpen path "rb",
           Event.httpPost p.api_url (group_payload p m gk t u ut pr s d)
             [("attachment", path)] p.timeout,
           Event.fileClose path] := by
  have hb : (path == "") = false := beq_eq_false_iff_ne.mpr hpath
  have ht : truthy (some path) = true := by simp [truthy, hb]
  constructor <;> simp [send_message, send_group_message, ht, hopen]

/-- Witness for C5 at path "pic.png", in a world whose transport fails:
the open/close cycle still brackets the failing POST. -/
theorem c5_attachment_open_close_witness :
    (send_message cClient wTransportFail "hi" none none none (some 0) none none
        (some "pic.png")).snd
      = [Event.fileOpen "pic.png" "rb",
         Event.httpPost cClient.api_url
           (message_payload cClient "hi" none none none (some 0) none none)
           [("attachment", "pic.png")] cClient.timeout,
         Event.fileClose "pic.png"] ∧
    (send_group_message cClient wTransportFail "hi" "G" none none none (some 0)
        none none (some "pic.png")).snd
      = [Event.fileOpen "pic.png" "rb",
         Event.httpPost cClient.api_url
           (group_payload cClient "hi" "G" none none none (some 0) none none)
           [("attachment", "pic.png")] cClient.timeout,
         Event.fileClose "pic.png"] :=
  c5_attachment_open_close cClient wTransportFail "hi" "G" "pic.png"
    none none none (some 0) none none (by decide) rfl

/-- Claim C6: for each of the four operations, a 2xx response whose body
fails to decode as JSON makes the operation raise the raw decode error,
not a `PushoverException`. -/
theorem c6_json_decode_error_unwrapped (p : Pushover) (w : World) (m gk : String)
    (t u ut : Option String) (pr r ex : Option Int) (s d : Option String)
    (a : Option String) (status : Nat) (reason err : String)
    (hopen : truthy a = true → w.openOk = true)
    (hpost : w.postOutcome = HttpOutcome.response status reason (Body.notJson err))
    (hget : w.getOutcome = HttpOutcome.response status reason (Body.notJson err))
    (h2 : 200 ≤ status) (h3 : status < 300) :
    (send_message p w m t u ut pr s d a).fst
        = CallResult.error (PyExn.jsonDecodeError err) ∧
    (send_emergency_message p w m t u ut r ex s d).fst
        = CallResult.error (PyExn.jsonDecodeError err) ∧
    (send_group_message p w m gk t u ut pr s d a).fst
        = CallResult.error (PyExn.jsonDecodeError err) ∧
    (list_sounds p w).fst = CallResult.error (PyExn.jsonDecodeError err) := by
  have hn : ¬(400 ≤ status ∧ status < 600) := by omega
  refine ⟨?_, ?_, ?_, ?_⟩
  · rw [send_message_fst p w m t u ut pr s d a hopen, hpost,
      finish_notJson _ _ _ _ _ hn]
  · rw [send_emergency_message_fst, hpost, finish_notJson _ _ _ _ _ hn]
  · rw [send_group_message_fst p w m gk t u ut pr s d a hopen, hpost,
      finish_notJson _ _ _ _ _ hn]
  · rw [list_sounds_fst, hget, finish_notJson _ _ _ _ _ hn]

/-- Witness for C6: a 200 response whose body fails to decode with
message "Expecting value" surfaces as the raw decode error. -/
theorem c6_json_decode_error_unwrapped_witness :
    (send_message cClient wBadBody "hi" none none none (some 0) none none
        none).fst = CallResult.error (PyExn.jsonDecodeError "Expecting value") ∧
    (send_emergency_message cClient wBadBody "hi" none none none (some 30)
        (some 3600) none none).fst
      = CallResult.error (PyExn.jsonDecodeError "Expecting value") ∧
    (send_group_message cClient wBadBody "hi" "G" none none none (some 0)
        none none none).fst
      = CallResult.error (PyExn.jsonDecodeError "Expecting value") ∧
    (list_sounds cClient wBadBody).fst
      = CallResult.error (PyExn.jsonDecodeError "Expecting value") :=
  c6_json_decode_error_unwrapped cClient wBadBody "hi" "G" none none none
    (some 0) (some 30) (some 3600) none none none 200 "OK" "Expecting value"
    (fun _ => rfl) rfl rfl (by decide) (by decide)

/-- Claim C7: in all three send operations, each optional field key
(`title`, `url`, `url_title`, `sound`, `device`) is present in the
payload with the null placeholder when the caller did not supply it,
rather than the key being omitted. -/
theorem c7_optional_fields_null_placeholders (p : Pushover) (m gk : String)
    (pr r ex : Option Int) :
    ∀ key ∈ ["title", "url", "url_title", "sound", "device"],
      List.lookup key (message_payload p m none none none pr none none)
          = some Value.null ∧
      List.lookup key (emergency_payload p m none none none r ex none none)
          = some Value.null ∧
      List.lookup key (group_payload p m gk none none none pr none none)
          = some Value.null := by
  intro key hk
  fin_cases hk <;> exact ⟨rfl, rfl, rfl⟩

/-- Witness for C7 at the key "sound". -/
theorem c7_optional_fields_null_placeholders_witness :
    List.lookup "sound"
        (message_payload cClient "hi" none none none (some 0) none none)
      = some Value.null ∧
    List.lookup "sound"
        (emergency_payload cClient "hi" none none none (some 30) (some 3600)
          none none) = some Value.null ∧
    List.lookup "sound"
        (group_payload cClient "hi" "G" none none none (some 0) none none)
      = some Value.null :=
  c7_optional_fields_null_placeholders cClient "hi" "G" (some 0) (some 30)
    (some 3600) "sound" (by decide)

/-- Claim C8: `list_sounds` always issues exactly one GET to the fixed
sounds endpoint with `token` as its only parameter, and no POST, no
message body and no `user` parameter ever appear in its trace. -/
theorem c8_list_sounds_get_token_only (p : Pushover) (w : World) :
    (list_sounds p w).snd
        = [Event.httpGet sounds_url [("token", p.api_token)] p.timeout] := rfl

/-- Claim C9 counterexample: `send_message` with an attachment whose
`open` fails issues zero HTTP requests — a failure path with no
round-trip, contradicting "never zero on every failure path". -/
theorem c9_counterexample_open_failure :
    (send_message cClient wOpenFail "hi" none none none (some 0) none none
        (some "missing.png")).fst
      = CallResult.error (PyExn.osError "No such file or directory") ∧
    httpCount (send_message cClient wOpenFail "hi" none none none (some 0)
        none none (some "missing.png")).snd = 0 :=
  ⟨rfl, rfl⟩

/-- Claim C9 (amended): each invocation of the four operations issues
exactly one HTTP request on every path — success or failure — except
that when `send_message` or `send_group_message` is given a truthy
attachment whose `open` fails, zero requests are issued and the OS
error propagates (see the counterexample). -/
theorem c9_single_request_amended (p : Pushover) (w : World) (m gk : String)
    (t u ut : Option String) (pr r ex : Option Int) (s d : Option String)
    (a : Option String) (hopen : truthy a = true → w.openOk = true) :
    httpCount (send_message p w m t u ut pr s d a).snd = 1 ∧
    httpCount (send_emergency_message p w m t u ut r ex s d).snd = 1 ∧
    httpCount (send_group_message p w m gk t u ut pr s d a).snd = 1 ∧
    httpCount (list_sounds p w).snd = 1 := by
  refine ⟨?_, rfl, ?_, rfl⟩
  · by_cases ha : truthy a = true
    · simp [send_message, ha, hopen ha, httpCount]
    · simp [send_message, ha, httpCount]
  · by_cases ha : truthy a = true
    · simp [send_group_message, ha, hopen ha, httpCount]
    · simp [send_group_message, ha, httpCount]

/-- Witness for C9 (amended), with no attachment and a failing transport:
each operation still issues exactly one request. -/
theorem c9_single_request_amended_witness :
    httpCount (send_message cClient wTransportFail "hi" none none none (some 0)
        none none none).snd = 1 ∧
    httpCount (send_emergency_message cClient wTransportFail "hi" none none none
        (some 30) (some 3600) none none).snd = 1 ∧
    httpCount (send_group_message cClient wTransportFail "hi" "G" none none none
        (some 0) none none none).snd = 1 ∧
    httpCount (list_sounds cClient wTransportFail).snd = 1 :=
  c9_single_request_amended cClient wTransportFail "hi" "G" none none none
    (some 0) (some 30) (some 3600) none none none (fun _ => rfl)

/-- Claim C10: supplying the empty string as attachment (falsy in Python)
behaves exactly as supplying no attachment: the call is identical, no
file is opened, and a plain request with an empty files part is sent. -/
theorem c10_empty_attachment_like_none (p : Pushover) (w : World) (m gk : String)
    (t u ut : Option String) (pr : Option Int) (s d : Option String) :
    send_message p w m t u ut pr s d (some "")
        = send_message p w m t u ut pr s d none ∧
    (send_message p w m t u ut pr s d (some "")).snd
        = [Event.httpPost p.api_url (message_payload p m t u ut pr s d)
            [] p.timeout] ∧
    send_group_message p w m gk t u ut pr s d (some "")
        = send_group_message p w m gk t u ut pr s d none ∧
    (send_group_message p w m gk t u ut pr s d (some "")).snd
        = [Event.httpPost p.api_url (group_payload p m gk t u ut pr s d)
            [] p.timeout] :=
  ⟨rfl, rfl, rfl, rfl⟩
